import Mathlib

/-!
Verification of the GenieIQ setup script (src/scripts/setup_notebook.py).

The script is a linear sequence of three remote calls (fetch app metadata,
trigger a redeploy with fresh environment variables, poll deployment status
at a fixed interval until a terminal state) wrapped in one try/except.

We embed it as a trace semantics: a World record supplies the responses of
the three remote calls, and running the script produces a list of observable
events (remote calls, printed lines, sleeps) together with an outcome.
The polling loop is fuel-indexed; exhausting the fuel yields the outcome
Outcome.running, which models a loop still polling after that many fetches.
-/

namespace GenieIQ

/-- Database connection parameters (the configuration literals DB_HOST,
DB_PORT, DB_NAME, DB_USER, DB_PASS edited in place in the notebook). -/
structure DbConfig where
  host : String
  port : String
  name : String
  user : String
  password : String
deriving DecidableEq, Repr

/-- One environment variable entry, mirroring the Python dicts
with keys "name" and "value". -/
structure EnvVar where
  name : String
  value : String
deriving DecidableEq, Repr

/-- The new_vars list built in the script: fixed order, seven entries. -/
def new_vars (cfg : DbConfig) : List EnvVar :=
  [ ⟨"NODE_ENV", "production"⟩,
    ⟨"PORT", "8080"⟩,
    ⟨"LAKEBASE_HOST", cfg.host⟩,
    ⟨"LAKEBASE_PORT", cfg.port⟩,
    ⟨"LAKEBASE_DATABASE", cfg.name⟩,
    ⟨"LAKEBASE_USER", cfg.user⟩,
    ⟨"LAKEBASE_PASSWORD", cfg.password⟩ ]

/-- The active deployment of an application, carrying the source path. -/
structure ActiveDeployment where
  source_code_path : String
deriving DecidableEq, Repr

/-- Application record returned by w.apps.get.  active_deployment is None
(here: none) when the application has no active deployment; the Python
attribute access then raises, which the embedding models explicitly. -/
structure App where
  name : String
  id : String
  url : String
  active_deployment : Option ActiveDeployment
deriving DecidableEq, Repr

/-- Status of a deployment: a state string plus an optional message. -/
structure AppDeploymentStatus where
  state : String
  message : Option String
deriving DecidableEq, Repr

/-- Deployment record returned by w.apps.deploy and w.apps.get_deployment. -/
structure AppDeployment where
  deployment_id : String
  status : AppDeploymentStatus
deriving DecidableEq, Repr

/-- Python prints None as the string "None"; print(status.status.message). -/
def pyStr : Option String → String
  | none => "None"
  | some s => s

/-- Observable events of one run: the three remote calls, printed lines,
and sleeps.  Arguments record exactly what the script passes. -/
inductive Event where
  | getApp (name : String)
  | deploy (appName : String) (sourceCodePath : String) (env : List EnvVar)
  | getDeployment (appName : String) (deploymentId : String)
  | print (line : String)
  | sleep (seconds : Nat)
deriving DecidableEq, Repr

/-- Outcome of a (fuel-bounded) run: finished normally, an uncaught
exception carrying a message, or still running when the fuel ran out. -/
inductive Outcome where
  | finished
  | raised (msg : String)
  | running
deriving DecidableEq, Repr

/-- The external service as the script sees it: the response to the one
w.apps.get call, the response to the one w.apps.deploy call, and the
response to the k-th w.apps.get_deployment call (k counted from 0).
An error value models the call raising an exception. -/
structure World where
  getAppResult : Except String App
  deployResult : Except String AppDeployment
  getDeploymentResult : Nat → Except String AppDeployment

/-- The `while True` polling loop, fuel-indexed: at most `fuel` more status
fetches, the next fetch being the k-th overall.  Mirrors the source: fetch,
print the state, branch on SUCCEEDED / FAILED / [STOPPED, ERROR], else
sleep 5 and loop. -/
def pollLoop (w : World) (appName deploymentId appUrl : String) :
    Nat → Nat → List Event × Outcome
  | 0, _ => ([], Outcome.running)
  | fuel + 1, k =>
    match w.getDeploymentResult k with
    | Except.error e => ([Event.getDeployment appName deploymentId], Outcome.raised e)
    | Except.ok status =>
      let state := status.status.state
      let evs := [Event.getDeployment appName deploymentId,
                  Event.print ("   Status: " ++ state)]
      if state = "SUCCEEDED" then
        (evs ++ [Event.print "✅ SUCCESS! GenieIQ is now connected to the database.",
                 Event.print ("👉 Go to: " ++ appUrl)], Outcome.finished)
      else if state = "FAILED" then
        (evs ++ [Event.print "❌ Deployment Failed.",
                 Event.print (pyStr status.status.message)], Outcome.finished)
      else if state = "STOPPED" ∨ state = "ERROR" then
        (evs ++ [Event.print ("❌ Deployment ended with state: " ++ state)],
         Outcome.finished)
      else
        let rest := pollLoop w appName deploymentId appUrl fuel (k + 1)
        (evs ++ Event.sleep 5 :: rest.1, rest.2)

/-- The body of the try: block — get the app, build new_vars, read the
active source path, deploy, then poll.  An Outcome.raised value is an
exception about to propagate to the except handler. -/
def tryBody (appName : String) (cfg : DbConfig) (w : World) (fuel : Nat) :
    List Event × Outcome :=
  match w.getAppResult with
  | Except.error e => ([Event.getApp appName], Outcome.raised e)
  | Except.ok app =>
    let evs1 := [Event.getApp appName,
                 Event.print ("✅ Found App: " ++ app.name ++ " (ID: " ++ app.id ++ ")"),
                 Event.print "🔄 Updating Environment Variables..."]
    match app.active_deployment with
    | none =>
      (evs1, Outcome.raised "AttributeError: NoneType object has no attribute source_code_path")
    | some act =>
      let source_path := act.source_code_path
      let evs2 := evs1 ++
        [Event.print ("📦 Redeploying from " ++ source_path ++ " with new config...")]
      match w.deployResult with
      | Except.error e =>
        (evs2 ++ [Event.deploy appName source_path (new_vars cfg)], Outcome.raised e)
      | Except.ok deployment =>
        let evs3 := evs2 ++
          [Event.deploy appName source_path (new_vars cfg),
           Event.print "⏳ Deployment started... waiting for completion..."]
        let rest := pollLoop w appName deployment.deployment_id app.url fuel 0
        (evs3 ++ rest.1, rest.2)

/-- The whole script: the banner print, then the try body, then the blanket
except handler that prints the error message and falls through. -/
def runScript (appName : String) (cfg : DbConfig) (w : World) (fuel : Nat) :
    List Event × Outcome :=
  let pre := [Event.print ("🚀 Configuring App: " ++ appName ++ "...")]
  let body := tryBody appName cfg w fuel
  match body.2 with
  | Outcome.raised e =>
    (pre ++ body.1 ++ [Event.print ("❌ Error: " ++ e)], Outcome.finished)
  | o => (pre ++ body.1, o)

/-- The closed terminal-state set of the polling loop. -/
def isTerminal (s : String) : Bool :=
  s == "SUCCEEDED" || s == "FAILED" || s == "STOPPED" || s == "ERROR"

/-- Is this event a deploy request? -/
def isDeploy : Event → Bool
  | Event.deploy _ _ _ => true
  | _ => false

/-- Is this event a get-app call? -/
def isGetApp : Event → Bool
  | Event.getApp _ => true
  | _ => false

/-- Is this event a status fetch? -/
def isGetDeployment : Event → Bool
  | Event.getDeployment _ _ => true
  | _ => false

/-- Number of deploy requests in a trace. -/
def countDeploys (t : List Event) : Nat := t.countP isDeploy

/-- Number of get-app calls in a trace. -/
def countGetApp (t : List Event) : Nat := t.countP isGetApp

/-- Number of status fetches in a trace. -/
def countGetDeployment (t : List Event) : Nat := t.countP isGetDeployment

/-- The printed lines of a trace, in order. -/
def printedLines (t : List Event) : List String :=
  t.filterMap (fun e => match e with | Event.print s => some s | _ => none)

/-- Does the first list start the second (list version of startsWith)? -/
def startsWithL : List Char → List Char → Bool
  | [], _ => true
  | _ :: _, [] => false
  | a :: as, b :: bs => a == b && startsWithL as bs

/-- Does the first list occur contiguously inside the second? -/
def occursIn (nd : List Char) : List Char → Bool
  | [] => startsWithL nd []
  | b :: bs => startsWithL nd (b :: bs) || occursIn nd bs

/-- Does the string nd occur as a substring of hay? -/
def strOccurs (nd hay : String) : Bool := occursIn nd.data hay.data

/-- Is this event a printed handler error line ("❌ Error: " ...)? -/
def isErrLine : Event → Bool
  | Event.print s => startsWithL "❌ Error: ".data s.data
  | _ => false

/-- The configuration literals as they stand in the notebook source. -/
def cfg0 : DbConfig :=
  ⟨"your-postgres-host.databricks.com", "5432", "genieiq", "genieiq_user", "your-password"⟩

/-- A sample application record for concrete runs. -/
def app0 : App :=
  ⟨"simpletest", "12345", "https://genieiq.example", some ⟨"/Workspace/genieiq"⟩⟩

/-- A sample deploy response for concrete runs. -/
def dep0 : AppDeployment := ⟨"dep1", ⟨"PENDING", none⟩⟩

/-- A status fetch answer that is forever RUNNING. -/
def stRunning : AppDeployment := ⟨"dep1", ⟨"RUNNING", none⟩⟩

/-- World whose deployment ends STOPPED with the message "boom" present. -/
def wStopBoom : World :=
  ⟨Except.ok app0, Except.ok dep0,
   fun _ => Except.ok ⟨"dep1", ⟨"STOPPED", some "boom"⟩⟩⟩

/-- World whose deployment ends FAILED with the message "boom". -/
def wFailBoom : World :=
  ⟨Except.ok app0, Except.ok dep0,
   fun _ => Except.ok ⟨"dep1", ⟨"FAILED", some "boom"⟩⟩⟩

/-- World that polls forever: every status fetch answers RUNNING. -/
def wRunning : World :=
  ⟨Except.ok app0, Except.ok dep0, fun _ => Except.ok stRunning⟩

/-- World with status sequence RUNNING, RUNNING, SUCCEEDED, SUCCEEDED, ... -/
def wRRS : World :=
  ⟨Except.ok app0, Except.ok dep0,
   fun k => Except.ok ⟨"dep1", ⟨if k < 2 then "RUNNING" else "SUCCEEDED", none⟩⟩⟩

/-- The polling loop never emits a deploy request. -/
theorem pollLoop_no_deploy (w : World) (appName deploymentId appUrl : String) :
    ∀ fuel k e, e ∈ (pollLoop w appName deploymentId appUrl fuel k).1 →
      isDeploy e = false := by
  intro fuel
  induction fuel with
  | zero => intro k e he; simp [pollLoop] at he
  | succ n ih =>
    intro k e he
    rw [pollLoop] at he
    cases hw : w.getDeploymentResult k with
    | error msg =>
      rw [hw] at he
      simp only [List.mem_singleton] at he
      subst he; rfl
    | ok status =>
      rw [hw] at he
      simp only [List.append_eq, List.cons_append, List.nil_append] at he
      split at he
      · simp only [List.mem_cons, List.not_mem_nil, or_false] at he
        rcases he with h | h | h | h <;> (subst h; rfl)
      · split at he
        · simp only [List.mem_cons, List.not_mem_nil, or_false] at he
          rcases he with h | h | h | h <;> (subst h; rfl)
        · split at he
          · simp only [List.mem_cons, List.not_mem_nil, or_false] at he
            rcases he with h | h | h <;> (subst h; rfl)
          · simp only [List.mem_cons, List.mem_append] at he
            rcases he with h | h | h | h
            · subst h; rfl
            · subst h; rfl
            · subst h; rfl
            · exact ih (k + 1) e h

/-- C1: for every database configuration, the environment list built before
the deploy call is exactly the fixed-order seven-pair list NODE_ENV,
PORT, LAKEBASE_HOST, LAKEBASE_PORT, LAKEBASE_DATABASE, LAKEBASE_USER,
LAKEBASE_PASSWORD, with the given values and nothing else. -/
theorem C1_env_vars_exact (h pt n u p : String) :
    new_vars ⟨h, pt, n, u, p⟩ =
      [ ⟨"NODE_ENV", "production"⟩,
        ⟨"PORT", "8080"⟩,
        ⟨"LAKEBASE_HOST", h⟩,
        ⟨"LAKEBASE_PORT", pt⟩,
        ⟨"LAKEBASE_DATABASE", n⟩,
        ⟨"LAKEBASE_USER", u⟩,
        ⟨"LAKEBASE_PASSWORD", p⟩ ] := rfl

/-- C2: when the lookup succeeds and the app has an active deployment,
exactly one deploy request appears in the trace, and any deploy request in
the trace carries the looked-up active source path unchanged and exactly
the constructed environment list (full replacement). -/
theorem C2_single_deploy (appName : String) (cfg : DbConfig) (w : World)
    (fuel : Nat) (app : App) (act : ActiveDeployment)
    (hget : w.getAppResult = Except.ok app)
    (hact : app.active_deployment = some act) :
    countDeploys (runScript appName cfg w fuel).1 = 1 ∧
    ∀ a s env, Event.deploy a s env ∈ (runScript appName cfg w fuel).1 →
      a = appName ∧ s = act.source_code_path ∧ env = new_vars cfg := by
  have hbody :
      (tryBody appName cfg w fuel).1 =
        [Event.getApp appName,
         Event.print ("✅ Found App: " ++ app.name ++ " (ID: " ++ app.id ++ ")"),
         Event.print "🔄 Updating Environment Variables...",
         Event.print ("📦 Redeploying from " ++ act.source_code_path ++ " with new config...")] ++
        (match w.deployResult with
         | Except.error _ => [Event.deploy appName act.source_code_path (new_vars cfg)]
         | Except.ok deployment =>
           Event.deploy appName act.source_code_path (new_vars cfg) ::
           Event.print "⏳ Deployment started... waiting for completion..." ::
           (pollLoop w appName deployment.deployment_id app.url fuel 0).1) := by
    rw [tryBody, hget]
    simp only [hact]
    cases w.deployResult with
    | error e => simp
    | ok deployment => simp
  have hcount : (tryBody appName cfg w fuel).1.countP isDeploy = 1 := by
    rw [hbody]
    cases hdep : w.deployResult with
    | error e =>
      simp [List.countP_append, List.countP_cons, isDeploy, List.countP_nil]
    | ok deployment =>
      have hz : (pollLoop w appName deployment.deployment_id app.url fuel 0).1.countP
          isDeploy = 0 := by
        rw [List.countP_eq_zero]
        intro e he
        simpa using pollLoop_no_deploy w appName deployment.deployment_id app.url fuel 0 e he
      simp [List.countP_append, List.countP_cons, isDeploy, hz]
  have hmem2 : ∀ a s env, Event.deploy a s env ∈ (tryBody appName cfg w fuel).1 →
      a = appName ∧ s = act.source_code_path ∧ env = new_vars cfg := by
    intro a s env h
    rw [hbody] at h
    simp only [List.mem_append, List.mem_cons, List.not_mem_nil, or_false] at h
    rcases h with (h | h | h | h) | h
    · cases h
    · cases h
    · cases h
    · cases h
    · cases hdep : w.deployResult with
      | error e =>
        rw [hdep] at h
        simp only [List.mem_singleton] at h
        cases h
        exact ⟨rfl, rfl, rfl⟩
      | ok deployment =>
        rw [hdep] at h
        simp only [List.mem_cons] at h
        rcases h with h | h | h
        · cases h; exact ⟨rfl, rfl, rfl⟩
        · cases h
        · have := pollLoop_no_deploy w appName deployment.deployment_id app.url fuel 0 _ h
          simp [isDeploy] at this
  constructor
  · rw [runScript]
    cases hout : (tryBody appName cfg w fuel).2 <;>
      simp [countDeploys, List.countP_append, List.countP_cons, List.countP_nil,
        isDeploy, hcount]
  · intro a s env hmem
    rw [runScript] at hmem
    cases hout : (tryBody appName cfg w fuel).2 <;> rw [hout] at hmem <;>
      simp only [List.mem_append, List.mem_cons, List.not_mem_nil, or_false,
        List.singleton_append, List.mem_singleton] at hmem
    · rcases hmem with h | h
      · cases h
      · exact hmem2 a s env h
    · rcases hmem with (h | h) | h
      · cases h
      · exact hmem2 a s env h
      · cases h
    · rcases hmem with h | h
      · cases h
      · exact hmem2 a s env h

/-- Unfolding of isTerminal = false into the four inequations. -/
theorem not_terminal_iff (s : String) :
    isTerminal s = false ↔
      s ≠ "SUCCEEDED" ∧ s ≠ "FAILED" ∧ s ≠ "STOPPED" ∧ s ≠ "ERROR" := by
  simp only [isTerminal, Bool.or_eq_false_iff, beq_eq_false_iff_ne, ne_eq]
  tauto

/-- As long as every fetched status is a non-terminal success, the loop
runs through its whole fuel: each iteration is fetch, status print,
sleep 5, and the outcome is still Outcome.running. -/
theorem pollLoop_nonterminal (w : World) (appName deploymentId appUrl : String)
    (stf : Nat → AppDeployment)
    (hok : ∀ k, w.getDeploymentResult k = Except.ok (stf k))
    (hnt : ∀ k, isTerminal (stf k).status.state = false) :
    ∀ fuel k, pollLoop w appName deploymentId appUrl fuel k =
      ((List.range fuel).flatMap (fun i =>
         [Event.getDeployment appName deploymentId,
          Event.print ("   Status: " ++ (stf (k + i)).status.state),
          Event.sleep 5]), Outcome.running) := by
  intro fuel
  induction fuel with
  | zero => intro k; simp [pollLoop]
  | succ n ih =>
    intro k
    have h := (not_terminal_iff _).mp (hnt k)
    rw [pollLoop, hok k]
    simp only [if_neg h.1, if_neg h.2.1,
      if_neg (not_or.mpr ⟨h.2.2.1, h.2.2.2⟩)]
    rw [ih (k + 1), List.range_succ_eq_map]
    have harg :
        (fun i => [Event.getDeployment appName deploymentId,
          Event.print ("   Status: " ++ (stf (k + 1 + i)).status.state),
          Event.sleep 5]) =
        (fun i => [Event.getDeployment appName deploymentId,
          Event.print ("   Status: " ++ (stf (k + (i + 1))).status.state),
          Event.sleep 5]) :=
      funext fun i => by rw [show k + 1 + i = k + (i + 1) from by omega]
    simp [List.flatMap_cons, List.flatMap_map, harg]

/-- A fetched terminal status ends the loop at once, whatever fuel is left. -/
theorem pollLoop_terminal_step (w : World) (appName deploymentId appUrl : String)
    (k fuel : Nat) (st : AppDeployment)
    (hok : w.getDeploymentResult k = Except.ok st)
    (ht : isTerminal st.status.state = true) :
    (pollLoop w appName deploymentId appUrl (fuel + 1) k).2 = Outcome.finished := by
  rw [pollLoop, hok]
  simp only [isTerminal, Bool.or_eq_true, beq_iff_eq] at ht
  rcases ht with ((h | h) | h) | h <;> simp [h]

/-- C3: the loop stops exactly on the closed terminal set {SUCCEEDED,
FAILED, STOPPED, ERROR}.  First conjunct: on a status stream that stays
outside that set the loop never stops — for every fuel bound it has made
exactly that many fetches, printed each state, slept 5 between fetches,
and is still running (no attempt cap or timeout).  Second conjunct: a
fetched terminal state ends the loop immediately. -/
theorem C3_poll_terminates_iff_terminal (w : World)
    (appName deploymentId appUrl : String) :
    (∀ (stf : Nat → AppDeployment),
      (∀ k, w.getDeploymentResult k = Except.ok (stf k)) →
      (∀ k, isTerminal (stf k).status.state = false) →
      ∀ fuel, pollLoop w appName deploymentId appUrl fuel 0 =
        ((List.range fuel).flatMap (fun i =>
           [Event.getDeployment appName deploymentId,
            Event.print ("   Status: " ++ (stf i).status.state),
            Event.sleep 5]), Outcome.running)) ∧
    (∀ k fuel st, w.getDeploymentResult k = Except.ok st →
      isTerminal st.status.state = true →
      (pollLoop w appName deploymentId appUrl (fuel + 1) k).2 = Outcome.finished) := by
  constructor
  · intro stf hok hnt fuel
    have h := pollLoop_nonterminal w appName deploymentId appUrl stf hok hnt fuel 0
    simpa using h
  · intro k fuel st hok ht
    exact pollLoop_terminal_step w appName deploymentId appUrl k fuel st hok ht

/-- C4 counterexample: on terminal state STOPPED with message "boom"
present, the run terminates but "boom" occurs in no printed line — the
STOPPED/ERROR branch prints only the state, never the message, so the
claimed behavior fails as stated. -/
theorem C4_counterexample :
    wStopBoom.getDeploymentResult 0 =
      Except.ok ⟨"dep1", ⟨"STOPPED", some "boom"⟩⟩ ∧
    (runScript "simpletest" cfg0 wStopBoom 5).2 = Outcome.finished ∧
    ∀ l ∈ printedLines (runScript "simpletest" cfg0 wStopBoom 5).1,
      strOccurs "boom" l = false :=
  ⟨rfl, by decide, by decide⟩

/-- C4 amended: when the fetched status is terminal the loop stops at
once and prints as follows — on SUCCEEDED, the success line and the
application URL; on FAILED, the failure line and the message (Python
prints it even when absent, as None); on STOPPED or ERROR, only a line
naming the state, the message is not surfaced. -/
theorem C4_terminal_output (w : World) (appName deploymentId appUrl : String)
    (k fuel : Nat) (st : AppDeployment)
    (hok : w.getDeploymentResult k = Except.ok st) :
    (st.status.state = "SUCCEEDED" →
      pollLoop w appName deploymentId appUrl (fuel + 1) k =
        ([Event.getDeployment appName deploymentId,
          Event.print ("   Status: " ++ st.status.state),
          Event.print "✅ SUCCESS! GenieIQ is now connected to the database.",
          Event.print ("👉 Go to: " ++ appUrl)], Outcome.finished)) ∧
    (st.status.state = "FAILED" →
      pollLoop w appName deploymentId appUrl (fuel + 1) k =
        ([Event.getDeployment appName deploymentId,
          Event.print ("   Status: " ++ st.status.state),
          Event.print "❌ Deployment Failed.",
          Event.print (pyStr st.status.message)], Outcome.finished)) ∧
    ((st.status.state = "STOPPED" ∨ st.status.state = "ERROR") →
      pollLoop w appName deploymentId appUrl (fuel + 1) k =
        ([Event.getDeployment appName deploymentId,
          Event.print ("   Status: " ++ st.status.state),
          Event.print ("❌ Deployment ended with state: " ++ st.status.state)],
         Outcome.finished)) := by
  refine ⟨fun h => ?_, fun h => ?_, fun h => ?_⟩
  · rw [pollLoop, hok]; simp [h]
  · rw [pollLoop, hok]; simp [h]
  · rcases h with h | h <;> (rw [pollLoop, hok]; simp [h])

/-- C4 witness: a concrete FAILED deployment with message "boom" ends the
loop and prints "boom". -/
theorem C4_terminal_output_witness :
    pollLoop wFailBoom "simpletest" "dep1" "https://genieiq.example" 1 0 =
      ([Event.getDeployment "simpletest" "dep1",
        Event.print ("   Status: " ++ "FAILED"),
        Event.print "❌ Deployment Failed.",
        Event.print "boom"], Outcome.finished) :=
  (C4_terminal_output wFailBoom "simpletest" "dep1" "https://genieiq.example"
    0 0 ⟨"dep1", ⟨"FAILED", some "boom"⟩⟩ rfl).2.1 rfl

/-- C5: on the status sequence RUNNING, RUNNING, SUCCEEDED the run makes
exactly 3 status fetches with one sleep 5 between consecutive fetches and
none after the terminal one, then stops — whatever extra fuel is
available, no further calls happen. -/
theorem C5_three_fetches (n : Nat) :
    runScript "simpletest" cfg0 wRRS (n + 3) =
      ([Event.print ("🚀 Configuring App: " ++ "simpletest" ++ "..."),
        Event.getApp "simpletest",
        Event.print ("✅ Found App: " ++ "simpletest" ++ " (ID: " ++ "12345" ++ ")"),
        Event.print "🔄 Updating Environment Variables...",
        Event.print ("📦 Redeploying from " ++ "/Workspace/genieiq" ++ " with new config..."),
        Event.deploy "simpletest" "/Workspace/genieiq" (new_vars cfg0),
        Event.print "⏳ Deployment started... waiting for completion...",
        Event.getDeployment "simpletest" "dep1",
        Event.print ("   Status: " ++ "RUNNING"),
        Event.sleep 5,
        Event.getDeployment "simpletest" "dep1",
        Event.print ("   Status: " ++ "RUNNING"),
        Event.sleep 5,
        Event.getDeployment "simpletest" "dep1",
        Event.print ("   Status: " ++ "SUCCEEDED"),
        Event.print "✅ SUCCESS! GenieIQ is now connected to the database.",
        Event.print ("👉 Go to: " ++ "https://genieiq.example")], Outcome.finished) ∧
    countGetDeployment (runScript "simpletest" cfg0 wRRS (n + 3)).1 = 3 := by
  have h : runScript "simpletest" cfg0 wRRS (n + 3) = _ := rfl
  refine ⟨rfl, ?_⟩
  rw [show (runScript "simpletest" cfg0 wRRS (n + 3)).1 = _ from congrArg Prod.fst h]
  rfl

/-- C6: when the application lookup raises (unknown name), no deploy
request is made, the one getApp call is not retried, the handler prints
the error line, and the run ends normally. -/
theorem C6_lookup_failure (appName : String) (cfg : DbConfig) (w : World)
    (fuel : Nat) (e : String) (h : w.getAppResult = Except.error e) :
    runScript appName cfg w fuel =
      ([Event.print ("🚀 Configuring App: " ++ appName ++ "..."),
        Event.getApp appName,
        Event.print ("❌ Error: " ++ e)], Outcome.finished) ∧
    countDeploys (runScript appName cfg w fuel).1 = 0 ∧
    countGetApp (runScript appName cfg w fuel).1 = 1 := by
  have hb : tryBody appName cfg w fuel = ([Event.getApp appName], Outcome.raised e) := by
    rw [tryBody, h]
  have hr : runScript appName cfg w fuel =
      ([Event.print ("🚀 Configuring App: " ++ appName ++ "..."),
        Event.getApp appName,
        Event.print ("❌ Error: " ++ e)], Outcome.finished) := by
    rw [runScript, hb]
    rfl
  refine ⟨hr, ?_, ?_⟩ <;>
    rw [show (runScript appName cfg w fuel).1 = _ from congrArg Prod.fst hr] <;> rfl

/-- C6 witness: a concrete world whose lookup fails. -/
theorem C6_lookup_failure_witness :
    runScript "simpletest" cfg0
      ⟨Except.error "NotFound", Except.ok dep0, fun _ => Except.ok stRunning⟩ 4 =
      ([Event.print ("🚀 Configuring App: " ++ "simpletest" ++ "..."),
        Event.getApp "simpletest",
        Event.print ("❌ Error: " ++ "NotFound")], Outcome.finished) :=
  (C6_lookup_failure "simpletest" cfg0
    ⟨Except.error "NotFound", Except.ok dep0, fun _ => Except.ok stRunning⟩ 4
    "NotFound" rfl).1

/-- C7: when the looked-up application has no active deployment, the
attribute access raises before any deploy request, the handler prints the
error line, and the run ends normally rather than crashing. -/
theorem C7_no_active_deployment (appName : String) (cfg : DbConfig) (w : World)
    (fuel : Nat) (app : App)
    (hget : w.getAppResult = Except.ok app)
    (hnone : app.active_deployment = none) :
    runScript appName cfg w fuel =
      ([Event.print ("🚀 Configuring App: " ++ appName ++ "..."),
        Event.getApp appName,
        Event.print ("✅ Found App: " ++ app.name ++ " (ID: " ++ app.id ++ ")"),
        Event.print "🔄 Updating Environment Variables...",
        Event.print ("❌ Error: " ++
          "AttributeError: NoneType object has no attribute source_code_path")],
       Outcome.finished) ∧
    countDeploys (runScript appName cfg w fuel).1 = 0 := by
  have hb : tryBody appName cfg w fuel =
      ([Event.getApp appName,
        Event.print ("✅ Found App: " ++ app.name ++ " (ID: " ++ app.id ++ ")"),
        Event.print "🔄 Updating Environment Variables..."],
       Outcome.raised
         "AttributeError: NoneType object has no attribute source_code_path") := by
    rw [tryBody, hget]
    simp only [hnone]
  have hr : runScript appName cfg w fuel =
      ([Event.print ("🚀 Configuring App: " ++ appName ++ "..."),
        Event.getApp appName,
        Event.print ("✅ Found App: " ++ app.name ++ " (ID: " ++ app.id ++ ")"),
        Event.print "🔄 Updating Environment Variables...",
        Event.print ("❌ Error: " ++
          "AttributeError: NoneType object has no attribute source_code_path")],
       Outcome.finished) := by
    rw [runScript, hb]
    rfl
  refine ⟨hr, ?_⟩
  rw [show (runScript appName cfg w fuel).1 = _ from congrArg Prod.fst hr]
  rfl

/-- C7 witness: a concrete application without an active deployment. -/
theorem C7_no_active_deployment_witness :
    runScript "simpletest" cfg0
      ⟨Except.ok ⟨"simpletest", "12345", "https://genieiq.example", none⟩,
       Except.ok dep0, fun _ => Except.ok stRunning⟩ 4 =
      ([Event.print ("🚀 Configuring App: " ++ "simpletest" ++ "..."),
        Event.getApp "simpletest",
        Event.print ("✅ Found App: " ++ "simpletest" ++ " (ID: " ++ "12345" ++ ")"),
        Event.print "🔄 Updating Environment Variables...",
        Event.print ("❌ Error: " ++
          "AttributeError: NoneType object has no attribute source_code_path")],
       Outcome.finished) :=
  (C7_no_active_deployment "simpletest" cfg0
    ⟨Except.ok ⟨"simpletest", "12345", "https://genieiq.example", none⟩,
     Except.ok dep0, fun _ => Except.ok stRunning⟩ 4
    ⟨"simpletest", "12345", "https://genieiq.example", none⟩ rfl rfl).1

/-- A needle starts every list it is a prefix of. -/
theorem startsWithL_append_self (p s : List Char) :
    startsWithL p (p ++ s) = true := by
  induction p with
  | nil => rfl
  | cons a as ih => simp [startsWithL, ih]

/-- A needle with a different first character starts nothing. -/
theorem startsWithL_false_of_head (c : Char) (nd : List Char) (d : Char)
    (hay : List Char) (h : (c == d) = false) :
    startsWithL (c :: nd) (d :: hay) = false := by
  simp [startsWithL, h]

/-- The first character of an appended string is that of its left part. -/
theorem headChar_append (p s : String) (c : Char)
    (h : ∃ cs, p.data = c :: cs) : ∃ ds, (p ++ s).data = c :: ds := by
  obtain ⟨cs, hcs⟩ := h
  exact ⟨cs ++ s.data, by rw [String.data_append, hcs]; rfl⟩

/-- A printed line whose first character is not ❌ is no handler error line. -/
theorem isErrLine_false_of_head (l : String) (c : Char)
    (h : ∃ cs, l.data = c :: cs) (hc : (('❌' : Char) == c) = false) :
    isErrLine (Event.print l) = false := by
  obtain ⟨cs, hcs⟩ := h
  show startsWithL "❌ Error: ".data l.data = false
  rw [hcs, show "❌ Error: ".data = '❌' :: " Error: ".data from rfl]
  exact startsWithL_false_of_head _ _ _ _ hc

/-- The handler error line is recognized as such. -/
theorem isErrLine_errline (m : String) :
    isErrLine (Event.print ("❌ Error: " ++ m)) = true := by
  show startsWithL "❌ Error: ".data ("❌ Error: " ++ m).data = true
  rw [String.data_append]
  exact startsWithL_append_self _ _

/-- A status line is no handler error line. -/
theorem isErrLine_statusline (s : String) :
    isErrLine (Event.print ("   Status: " ++ s)) = false :=
  isErrLine_false_of_head _ ' ' (headChar_append _ _ _ ⟨_, rfl⟩) (by decide)

/-- The banner line is no handler error line. -/
theorem isErrLine_banner (appName : String) :
    isErrLine (Event.print ("🚀 Configuring App: " ++ appName ++ "...")) = false :=
  isErrLine_false_of_head _ '🚀'
    (headChar_append _ _ _ (headChar_append _ _ _ ⟨_, rfl⟩)) (by decide)

/-- The found-app line is no handler error line. -/
theorem isErrLine_foundline (n i : String) :
    isErrLine (Event.print ("✅ Found App: " ++ n ++ " (ID: " ++ i ++ ")")) = false :=
  isErrLine_false_of_head _ '✅'
    (headChar_append _ _ _ (headChar_append _ _ _ (headChar_append _ _ _
      (headChar_append _ _ _ ⟨_, rfl⟩)))) (by decide)

/-- The redeploy line is no handler error line. -/
theorem isErrLine_redeployline (sp : String) :
    isErrLine (Event.print ("📦 Redeploying from " ++ sp ++ " with new config...")) = false :=
  isErrLine_false_of_head _ '📦'
    (headChar_append _ _ _ (headChar_append _ _ _ ⟨_, rfl⟩)) (by decide)

/-- When the loop ends by an exception from a status fetch, its trace so
far holds no handler error line (only fetches, status prints and sleeps). -/
theorem pollLoop_raised_no_errline (w : World)
    (appName deploymentId appUrl : String) :
    ∀ fuel k m, (pollLoop w appName deploymentId appUrl fuel k).2 = Outcome.raised m →
      ∀ e ∈ (pollLoop w appName deploymentId appUrl fuel k).1, isErrLine e = false := by
  intro fuel
  induction fuel with
  | zero => intro k m hm; rw [pollLoop] at hm; cases hm
  | succ n ih =>
    intro k m hm e he
    rw [pollLoop] at hm he
    cases hw : w.getDeploymentResult k with
    | error msg =>
      rw [hw] at he
      simp only [List.mem_singleton] at he
      subst he; rfl
    | ok status =>
      rw [hw] at hm he
      simp only at hm he
      by_cases h1 : status.status.state = "SUCCEEDED"
      · rw [if_pos h1] at hm; simp at hm
      · rw [if_neg h1] at hm he
        by_cases h2 : status.status.state = "FAILED"
        · rw [if_pos h2] at hm; simp at hm
        · rw [if_neg h2] at hm he
          by_cases h3 : status.status.state = "STOPPED" ∨ status.status.state = "ERROR"
          · rw [if_pos h3] at hm; simp at hm
          · rw [if_neg h3] at hm he
            simp only [List.cons_append, List.nil_append, List.mem_cons] at he
            rcases he with h | h | h | h
            · subst h; rfl
            · subst h; exact isErrLine_statusline _
            · subst h; rfl
            · exact ih (k + 1) m (by simpa using hm) e h

/-- When the try body ends by an exception, its trace holds no handler
error line: every error surfaces only through the blanket handler. -/
theorem tryBody_raised_no_errline (appName : String) (cfg : DbConfig)
    (w : World) (fuel : Nat) (m : String)
    (hm : (tryBody appName cfg w fuel).2 = Outcome.raised m) :
    ∀ e ∈ (tryBody appName cfg w fuel).1, isErrLine e = false := by
  intro e he
  rw [tryBody] at he
  cases hga : w.getAppResult with
  | error msg =>
    rw [hga] at he
    simp only [List.mem_singleton] at he
    subst he; rfl
  | ok app =>
    rw [hga] at he
    simp only at he
    cases had : app.active_deployment with
    | none =>
      rw [had] at he
      simp only [List.mem_cons, List.not_mem_nil, or_false] at he
      rcases he with h | h | h
      · subst h; rfl
      · subst h; exact isErrLine_foundline _ _
      · subst h; rfl
    | some act =>
      rw [had] at he
      simp only at he
      cases hdr : w.deployResult with
      | error msg =>
        rw [hdr] at he
        simp only [List.cons_append, List.nil_append, List.mem_cons,
          List.not_mem_nil, or_false] at he
        rcases he with h | h | h | h | h
        · subst h; rfl
        · subst h; exact isErrLine_foundline _ _
        · subst h; rfl
        · subst h; exact isErrLine_redeployline _
        · subst h; rfl
      | ok deployment =>
        rw [hdr] at he
        simp only [List.cons_append, List.nil_append, List.append_assoc,
          List.mem_cons, List.mem_append] at he
        have hpm : (pollLoop w appName deployment.deployment_id app.url fuel 0).2 =
            Outcome.raised m := by
          rw [tryBody, hga] at hm
          simp only [had, hdr] at hm
          exact hm
        rcases he with h | h | h | h | h | h | h
        · subst h; rfl
        · subst h; exact isErrLine_foundline _ _
        · subst h; rfl
        · subst h; exact isErrLine_redeployline _
        · subst h; rfl
        · subst h; rfl
        · exact pollLoop_raised_no_errline w appName deployment.deployment_id
            app.url fuel 0 m hpm e h

/-- C8: no exception escapes the script — the run never ends in a raised
outcome — and when the try body raises any error, the run ends normally
with the body trace followed by exactly one handler error line carrying
that message, the same way for every error. -/
theorem C8_blanket_handler (appName : String) (cfg : DbConfig) (w : World)
    (fuel : Nat) :
    (∀ m, (runScript appName cfg w fuel).2 ≠ Outcome.raised m) ∧
    (∀ m, (tryBody appName cfg w fuel).2 = Outcome.raised m →
      runScript appName cfg w fuel =
        (Event.print ("🚀 Configuring App: " ++ appName ++ "...") ::
          (tryBody appName cfg w fuel).1 ++ [Event.print ("❌ Error: " ++ m)],
         Outcome.finished) ∧
      (runScript appName cfg w fuel).1.countP isErrLine = 1) := by
  constructor
  · intro m
    rw [runScript]
    cases hout : (tryBody appName cfg w fuel).2 <;> simp
  · intro m hm
    have hr : runScript appName cfg w fuel =
        (Event.print ("🚀 Configuring App: " ++ appName ++ "...") ::
          (tryBody appName cfg w fuel).1 ++ [Event.print ("❌ Error: " ++ m)],
         Outcome.finished) := by
      rw [runScript, hm]
      rfl
    refine ⟨hr, ?_⟩
    rw [show (runScript appName cfg w fuel).1 = _ from congrArg Prod.fst hr]
    simp only [List.cons_append, List.countP_cons, List.countP_append,
      List.countP_nil, isErrLine_banner, isErrLine_errline, cond_true, cond_false]
    have hz : (tryBody appName cfg w fuel).1.countP isErrLine = 0 := by
      rw [List.countP_eq_zero]
      intro e he
      simp [tryBody_raised_no_errline appName cfg w fuel m hm e he]
    simp [hz]

/-- C8 witness: a status-fetch failure is caught, the run ends normally
with exactly one handler error line. -/
theorem C8_blanket_handler_witness :
    (runScript "simpletest" cfg0
      ⟨Except.ok app0, Except.ok dep0, fun _ => Except.error "network down"⟩ 3).2 ≠
      Outcome.raised "network down" ∧
    (runScript "simpletest" cfg0
      ⟨Except.ok app0, Except.ok dep0, fun _ => Except.error "network down"⟩ 3).1.countP
      isErrLine = 1 :=
  ⟨(C8_blanket_handler "simpletest" cfg0
      ⟨Except.ok app0, Except.ok dep0, fun _ => Except.error "network down"⟩ 3).1
      "network down",
   ((C8_blanket_handler "simpletest" cfg0
      ⟨Except.ok app0, Except.ok dep0, fun _ => Except.error "network down"⟩ 3).2
      "network down" rfl).2⟩

/-- The polling loop never emits a get-app call. -/
theorem pollLoop_no_getApp (w : World) (appName deploymentId appUrl : String) :
    ∀ fuel k e, e ∈ (pollLoop w appName deploymentId appUrl fuel k).1 →
      isGetApp e = false := by
  intro fuel
  induction fuel with
  | zero => intro k e he; simp [pollLoop] at he
  | succ n ih =>
    intro k e he
    rw [pollLoop] at he
    cases hw : w.getDeploymentResult k with
    | error msg =>
      rw [hw] at he
      simp only [List.mem_singleton] at he
      subst he; rfl
    | ok status =>
      rw [hw] at he
      simp only [List.append_eq, List.cons_append, List.nil_append] at he
      split at he
      · simp only [List.mem_cons, List.not_mem_nil, or_false] at he
        rcases he with h | h | h | h <;> (subst h; rfl)
      · split at he
        · simp only [List.mem_cons, List.not_mem_nil, or_false] at he
          rcases he with h | h | h | h <;> (subst h; rfl)
        · split at he
          · simp only [List.mem_cons, List.not_mem_nil, or_false] at he
            rcases he with h | h | h <;> (subst h; rfl)
          · simp only [List.mem_cons, List.mem_append] at he
            rcases he with h | h | h | h
            · subst h; rfl
            · subst h; rfl
            · subst h; rfl
            · exact ih (k + 1) e h

/-- The try body performs exactly one get-app call. -/
theorem tryBody_one_getApp (appName : String) (cfg : DbConfig) (w : World)
    (fuel : Nat) : (tryBody appName cfg w fuel).1.countP isGetApp = 1 := by
  rw [tryBody]
  cases hga : w.getAppResult with
  | error e => rfl
  | ok app =>
    cases had : app.active_deployment with
    | none => simp [had, List.countP_cons, isGetApp]
    | some act =>
      cases hdr : w.deployResult with
      | error e =>
        simp [had, hdr, List.countP_cons, List.countP_append, isGetApp]
      | ok deployment =>
        have hz : (pollLoop w appName deployment.deployment_id app.url fuel 0).1.countP
            isGetApp = 0 := by
          rw [List.countP_eq_zero]
          intro e he
          simp [pollLoop_no_getApp w appName deployment.deployment_id app.url fuel 0 e he]
        simp [had, hdr, List.countP_cons, List.countP_append, isGetApp, hz]

/-- C9: the application record is fetched exactly once per run — before the
redeploy, never re-fetched — and the URL printed on SUCCEEDED is the url
field of that single pre-deploy fetch. -/
theorem C9_app_fetched_once (appName : String) (cfg : DbConfig) (w : World)
    (fuel : Nat) :
    countGetApp (runScript appName cfg w fuel).1 = 1 ∧
    (∀ app act deployment st n,
      w.getAppResult = Except.ok app →
      app.active_deployment = some act →
      w.deployResult = Except.ok deployment →
      w.getDeploymentResult 0 = Except.ok st →
      st.status.state = "SUCCEEDED" →
      Event.print ("👉 Go to: " ++ app.url) ∈ (runScript appName cfg w (n + 1)).1) := by
  constructor
  · rw [runScript]
    cases hout : (tryBody appName cfg w fuel).2 <;>
      simp [countGetApp, List.countP_cons, List.countP_append, isGetApp,
        tryBody_one_getApp appName cfg w fuel]
  · intro app act deployment st n hga had hdr hst hsucc
    have hmem : Event.print ("👉 Go to: " ++ app.url) ∈
        (pollLoop w appName deployment.deployment_id app.url (n + 1) 0).1 := by
      rw [pollLoop, hst]
      simp only
      rw [if_pos hsucc]
      simp
    have hfin : (pollLoop w appName deployment.deployment_id app.url (n + 1) 0).2 =
        Outcome.finished := by
      rw [pollLoop, hst]
      simp only
      rw [if_pos hsucc]
    have hbody : tryBody appName cfg w (n + 1) =
        (([Event.getApp appName,
           Event.print ("✅ Found App: " ++ app.name ++ " (ID: " ++ app.id ++ ")"),
           Event.print "🔄 Updating Environment Variables..."] ++
          [Event.print ("📦 Redeploying from " ++ act.source_code_path ++
            " with new config...")] ++
          [Event.deploy appName act.source_code_path (new_vars cfg),
           Event.print "⏳ Deployment started... waiting for completion..."]) ++
          (pollLoop w appName deployment.deployment_id app.url (n + 1) 0).1,
         (pollLoop w appName deployment.deployment_id app.url (n + 1) 0).2) := by
      rw [tryBody, hga]
      simp only [had, hdr]
    rw [runScript]
    rw [show (tryBody appName cfg w (n + 1)).2 = Outcome.finished from
      (congrArg Prod.snd hbody).trans hfin]
    simp only [List.mem_append, List.mem_cons]
    refine Or.inr ?_
    rw [show (tryBody appName cfg w (n + 1)).1 = _ from congrArg Prod.fst hbody]
    simp [hmem]

/-- C9 witness: a run that succeeds at the first poll prints the URL of
the initially fetched application. -/
theorem C9_app_fetched_once_witness :
    countGetApp (runScript "simpletest" cfg0
      ⟨Except.ok app0, Except.ok dep0,
       fun _ => Except.ok ⟨"dep1", ⟨"SUCCEEDED", none⟩⟩⟩ 1).1 = 1 ∧
    Event.print ("👉 Go to: " ++ "https://genieiq.example") ∈
      (runScript "simpletest" cfg0
        ⟨Except.ok app0, Except.ok dep0,
         fun _ => Except.ok ⟨"dep1", ⟨"SUCCEEDED", none⟩⟩⟩ 1).1 :=
  ⟨(C9_app_fetched_once "simpletest" cfg0
      ⟨Except.ok app0, Except.ok dep0,
       fun _ => Except.ok ⟨"dep1", ⟨"SUCCEEDED", none⟩⟩⟩ 1).1,
   (C9_app_fetched_once "simpletest" cfg0
      ⟨Except.ok app0, Except.ok dep0,
       fun _ => Except.ok ⟨"dep1", ⟨"SUCCEEDED", none⟩⟩⟩ 1).2
     app0 ⟨"/Workspace/genieiq"⟩ dep0 ⟨"dep1", ⟨"SUCCEEDED", none⟩⟩ 0
     rfl rfl rfl rfl rfl⟩

/-- The polling loop only consults the status responses at the fetch
indices it actually reaches. -/
theorem pollLoop_congr (appName deploymentId appUrl : String) (w1 w2 : World) :
    ∀ fuel k,
      (∀ j, j < fuel →
        w1.getDeploymentResult (k + j) = w2.getDeploymentResult (k + j)) →
      pollLoop w1 appName deploymentId appUrl fuel k =
        pollLoop w2 appName deploymentId appUrl fuel k := by
  intro fuel
  induction fuel with
  | zero => intro k h; rfl
  | succ n ih =>
    intro k h
    have h0 : w1.getDeploymentResult k = w2.getDeploymentResult k := by
      have := h 0 (Nat.succ_pos n)
      simpa using this
    rw [pollLoop, pollLoop, ← h0]
    cases hw : w1.getDeploymentResult k with
    | error e => rfl
    | ok status =>
      simp only
      have hrec := ih (k + 1) (fun j hj => by
        have hh := h (j + 1) (by omega)
        rw [show k + 1 + j = k + (j + 1) from by omega]
        exact hh)
      rw [hrec]

/-- C10: the run is a deterministic function of the configuration and the
remote responses — two worlds answering the three calls identically (status
answers agreeing on every fetch the run can reach) yield the same event
trace and outcome. -/
theorem C10_deterministic (appName : String) (cfg : DbConfig) (fuel : Nat)
    (w1 w2 : World)
    (h1 : w1.getAppResult = w2.getAppResult)
    (h2 : w1.deployResult = w2.deployResult)
    (h3 : ∀ k, k < fuel → w1.getDeploymentResult k = w2.getDeploymentResult k) :
    runScript appName cfg w1 fuel = runScript appName cfg w2 fuel := by
  have hb : tryBody appName cfg w1 fuel = tryBody appName cfg w2 fuel := by
    rw [tryBody, tryBody, h1, h2]
    cases hga : w2.getAppResult with
    | error e => rfl
    | ok app =>
      simp only
      cases had : app.active_deployment with
      | none => rfl
      | some act =>
        simp only
        cases hdr : w2.deployResult with
        | error e => rfl
        | ok deployment =>
          simp only
          rw [pollLoop_congr appName deployment.deployment_id app.url w1 w2 fuel 0
            (fun j hj => by simpa using h3 j hj)]
  rw [runScript, runScript, hb]

/-- C10 witness: a concrete pair of (equal-response) worlds. -/
theorem C10_deterministic_witness :
    runScript "simpletest" cfg0 wRRS 3 = runScript "simpletest" cfg0
      ⟨Except.ok app0, Except.ok dep0,
       fun k => Except.ok ⟨"dep1", ⟨if k < 2 then "RUNNING" else "SUCCEEDED", none⟩⟩⟩ 3 :=
  C10_deterministic "simpletest" cfg0 3 wRRS
    ⟨Except.ok app0, Except.ok dep0,
     fun k => Except.ok ⟨"dep1", ⟨if k < 2 then "RUNNING" else "SUCCEEDED", none⟩⟩⟩
    rfl rfl (fun _ _ => rfl)

/-- C2 witness: a concrete successful lookup yields exactly one deploy. -/
theorem C2_single_deploy_witness :
    countDeploys (runScript "simpletest" cfg0 wRunning 2).1 = 1 :=
  (C2_single_deploy "simpletest" cfg0 wRunning 2 app0 ⟨"/Workspace/genieiq"⟩
    rfl rfl).1

/-- C3 witness: a forever-RUNNING world is still running after 2 fetches,
and a SUCCEEDED fetch ends the loop. -/
theorem C3_poll_terminates_iff_terminal_witness :
    (pollLoop wRunning "simpletest" "dep1" "https://genieiq.example" 2 0).2 =
      Outcome.running ∧
    (pollLoop wRRS "simpletest" "dep1" "https://genieiq.example" 1 2).2 =
      Outcome.finished := by
  constructor
  · have h := (C3_poll_terminates_iff_terminal wRunning "simpletest" "dep1"
      "https://genieiq.example").1 (fun _ => stRunning) (fun _ => rfl)
      (fun _ => rfl) 2
    exact congrArg Prod.snd h
  · exact (C3_poll_terminates_iff_terminal wRRS "simpletest" "dep1"
      "https://genieiq.example").2 2 0 ⟨"dep1", ⟨"SUCCEEDED", none⟩⟩ rfl (by decide)

end GenieIQ
